import Mathlib

/-!
Verification of the budgets-app backend controllers.

The repository contains two controller files: `BudgetsController`
(src/budgets/budgets.controller.ts) and `AuthController`. Both are pure
request wiring: a guard admits the request, pipes validate parameters,
and the handler makes a single call to an injected service, returning its
result. We embed the controllers faithfully as functions from request
data to `Except HttpStatus α`, where `Except.error` models the HTTP error
status the framework maps a rejection or thrown exception to, and
`Except.ok` models the success response (200/201). The service layer is
not part of the given source; where a claim depends on it, a definition
marked `Modelled from the spec:` supplies its documented behaviour, and
controller-level facts are proved parametrically over an arbitrary
service record.
-/

namespace BudgetsApp

/-- HTTP error statuses named by the error-handling section of the spec:
400 validation, 401 bad credentials, 404 missing resource,
500 generic service failure. -/
inductive HttpStatus where
  | badRequest
  | unauthorized
  | notFound
  | internalServerError
  deriving DecidableEq, Repr

/-- Modelled from the spec: `IPayloadToken` (src/common/interfaces, not in
the given source) is the payload of the verified JWT; its `sub` field is
the subject identifier of the authenticated user, which scopes every budget
operation. -/
structure IPayloadToken where
  sub : String
  deriving DecidableEq, Repr

/-- Modelled from the spec: `JwtAuthGuard` validates the bearer
token before any handler of `BudgetsController` runs; a missing or
invalid token is rejected with 401, a valid one attaches the decoded
payload as `req.user`. The verification itself (signature checking) is
abstracted as a function from the raw token to an optional payload. -/
def runJwtGuard (verify : String → Option IPayloadToken)
    (bearer : Option String) : Except HttpStatus IPayloadToken :=
  match bearer with
  | none => .error .unauthorized
  | some tok =>
    match verify tok with
    | none => .error .unauthorized
    | some payload => .ok payload

/-- A hexadecimal digit, as accepted inside a UUID. -/
def isHexDigit (c : Char) : Bool :=
  (Char.ofNat 48 ≤ c && c ≤ Char.ofNat 57) ||
  (Char.ofNat 97 ≤ c && c ≤ Char.ofNat 102) ||
  (Char.ofNat 65 ≤ c && c ≤ Char.ofNat 70)

/-- Character-by-character shape check for the canonical 36-character
UUID form: hyphens at positions 8, 13, 18 and 23, hex digits elsewhere. -/
def uuidShape : List Char → Nat → Bool
  | [], n => n == 36
  | c :: cs, n =>
    n < 36 &&
    (if n == 8 || n == 13 || n == 18 || n == 23
      then c == Char.ofNat 45
      else isHexDigit c) &&
    uuidShape cs (n + 1)

/-- Whether a string is a well-formed UUID in canonical textual form. -/
def isUUID (s : String) : Bool := uuidShape s.data 0

/-- Modelled from the spec: `ParseUUIDPipe` (a framework pipe attached to
the `id` route parameter) rejects a malformed UUID with a 400 validation
error before the handler body runs, and passes a well-formed one
through unchanged. -/
def parseUUIDPipe (s : String) : Except HttpStatus String :=
  if isUUID s then .ok s else .error .badRequest

/-- The injected `BudgetsService` as the controller sees it: one method
per route handler. The service is not part of the given source, so the
controller embedding is parametric in it; `C`, `U`, `F` are the
`CreateBudgetDto`, `UpdateBudgetDto` and `FilterBudgetDto` types, `B` the
`Budget` type, `M` the message object `remove` resolves to, and `Bal` the
`IBudgetBalance` type. The `Except.error` outcome of a method models the
HTTP status a thrown service exception is mapped to. -/
structure BudgetsService (C U F B M Bal : Type) where
  create : String → C → Except HttpStatus B
  findAll : String → F → Except HttpStatus (List B)
  findOne : String → String → Except HttpStatus B
  update : String → String → U → Except HttpStatus B
  remove : String → String → Except HttpStatus M
  getBalance : String → String → Except HttpStatus Bal

/-- `POST /budgets`: the class-level `JwtAuthGuard` admits the request,
then the handler reads `req.user`, casts it to `IPayloadToken`, and
returns `budgetsService.create(user.sub, createBudgetDto)`. -/
def BudgetsController.create {C U F B M Bal : Type}
    (svc : BudgetsService C U F B M Bal)
    (verify : String → Option IPayloadToken)
    (bearer : Option String) (createBudgetDto : C) : Except HttpStatus B :=
  (runJwtGuard verify bearer).bind fun user =>
    svc.create user.sub createBudgetDto

/-- `GET /budgets`: guard, then
`budgetsService.findAll(user.sub, filterOptions)` with the query
filters forwarded unchanged. -/
def BudgetsController.findAll {C U F B M Bal : Type}
    (svc : BudgetsService C U F B M Bal)
    (verify : String → Option IPayloadToken)
    (bearer : Option String) (filterOptions : F) :
    Except HttpStatus (List B) :=
  (runJwtGuard verify bearer).bind fun user =>
    svc.findAll user.sub filterOptions

/-- `GET /budgets/:id`: guard, then `ParseUUIDPipe` on the `id`
parameter, then `budgetsService.findOne(id, user.sub)`. -/
def BudgetsController.findOne {C U F B M Bal : Type}
    (svc : BudgetsService C U F B M Bal)
    (verify : String → Option IPayloadToken)
    (bearer : Option String) (idParam : String) : Except HttpStatus B :=
  (runJwtGuard verify bearer).bind fun user =>
    (parseUUIDPipe idParam).bind fun id =>
      svc.findOne id user.sub

/-- `PATCH /budgets/:id`: guard, `ParseUUIDPipe` on `id`, then
`budgetsService.update(id, user.sub, updateBudgetDto)`. -/
def BudgetsController.update {C U F B M Bal : Type}
    (svc : BudgetsService C U F B M Bal)
    (verify : String → Option IPayloadToken)
    (bearer : Option String) (idParam : String) (updateBudgetDto : U) :
    Except HttpStatus B :=
  (runJwtGuard verify bearer).bind fun user =>
    (parseUUIDPipe idParam).bind fun id =>
      svc.update id user.sub updateBudgetDto

/-- `DELETE /budgets/:id`: guard, `ParseUUIDPipe` on `id`, then
`budgetsService.remove(id, user.sub)`. -/
def BudgetsController.remove {C U F B M Bal : Type}
    (svc : BudgetsService C U F B M Bal)
    (verify : String → Option IPayloadToken)
    (bearer : Option String) (idParam : String) : Except HttpStatus M :=
  (runJwtGuard verify bearer).bind fun user =>
    (parseUUIDPipe idParam).bind fun id =>
      svc.remove id user.sub

/-- `GET /budgets/:id/balance`: guard, `ParseUUIDPipe` on `id`, then
`budgetsService.getBalance(id, user.sub)`. -/
def BudgetsController.getBalance {C U F B M Bal : Type}
    (svc : BudgetsService C U F B M Bal)
    (verify : String → Option IPayloadToken)
    (bearer : Option String) (idParam : String) : Except HttpStatus Bal :=
  (runJwtGuard verify bearer).bind fun user =>
    (parseUUIDPipe idParam).bind fun id =>
      svc.getBalance id user.sub

/-- The login/register success response documented by both auth routes:
an object with exactly an `accessToken` field and a `user` field. `Usr`
is the `User` entity type, which is not part of the given source. -/
structure AuthResponse (Usr : Type) where
  accessToken : String
  user : Usr
  deriving DecidableEq, Repr

/-- The injected `AuthService` as `AuthController` sees it: `Reg` is the
`CreateUserDto` type. `registerUser` may fail (its exception is mapped to
an HTTP status by the framework); `generateJwtToken` is the synchronous
call the login handler returns unchanged. -/
structure AuthService (Usr Reg : Type) where
  registerUser : Reg → Except HttpStatus (AuthResponse Usr)
  generateJwtToken : Usr → AuthResponse Usr

/-- Modelled from the spec: `LocalAuthGuard` on `POST /auth/login`
validates the supplied email and password before the handler body runs,
rejecting invalid credentials with 401 and attaching the authenticated
user as `req.user` otherwise. The credential check itself lives in the
unseen local strategy and is abstracted as `validateUser`. -/
def runLocalGuard {Usr : Type} (validateUser : String → String → Option Usr)
    (email password : String) : Except HttpStatus Usr :=
  match validateUser email password with
  | none => .error .unauthorized
  | some user => .ok user

/-- `POST /auth/login`: `LocalAuthGuard` admits the request, then the
handler reads `req.user`, calls `authService.generateJwtToken(user)` and
returns the result; `.ok` models the 201 success response. -/
def AuthController.login {Usr Reg : Type} (svc : AuthService Usr Reg)
    (validateUser : String → String → Option Usr)
    (email password : String) : Except HttpStatus (AuthResponse Usr) :=
  (runLocalGuard validateUser email password).map fun user =>
    svc.generateJwtToken user

/-- The raw body of `POST /auth/register` before DTO validation:
name, email and password fields. -/
structure RawRegisterBody where
  name : String
  email : String
  password : String
  deriving DecidableEq, Repr

/-- Modelled from the spec: the `CreateUserDto` (src/users/dto, not in
the given source) carries the validated name, email and password. -/
structure CreateUserDto where
  name : String
  email : String
  password : String
  deriving DecidableEq, Repr

/-- Splits a character list at its unique at-sign, failing when there is
no at-sign or more than one. -/
def splitAtSign : List Char → Option (List Char × List Char)
  | [] => none
  | c :: cs =>
    if c == Char.ofNat 64 then
      if cs.contains (Char.ofNat 64) then none else some ([], cs)
    else (splitAtSign cs).map fun p => (c :: p.1, p.2)

/-- Minimal well-formedness check for an email address: one at-sign with
a nonempty part before it and a dotted part after it that neither starts
nor ends with the dot. -/
def isEmail (s : String) : Bool :=
  match splitAtSign s.data with
  | none => false
  | some (before, after) =>
    !before.isEmpty && after.contains (Char.ofNat 46) &&
    after.head? != some (Char.ofNat 46) &&
    after.getLast? != some (Char.ofNat 46)

/-- Modelled from the spec: framework DTO validation of the register
body fails with a 400 validation error (the documented example messages
are that name should not be empty and email must be an email), and on
success yields the `CreateUserDto` passed to the handler. -/
def validateCreateUserDto (b : RawRegisterBody) :
    Except HttpStatus CreateUserDto :=
  if b.name != "" && isEmail b.email then
    .ok { name := b.name, email := b.email, password := b.password }
  else
    .error .badRequest

/-- `POST /auth/register`: framework DTO validation of the body, then
the handler returns `authService.registerUser(dto)`; `.ok` models the
201 success response. The validation pipe is not in the given source, so
the handler is parametric in it. -/
def AuthController.createUser {Usr Reg : Type} (svc : AuthService Usr Reg)
    (validate : RawRegisterBody → Except HttpStatus Reg)
    (body : RawRegisterBody) : Except HttpStatus (AuthResponse Usr) :=
  (validate body).bind fun dto => svc.registerUser dto

/-- Modelled from the spec: the unseen `AuthService`. Registration
issues a token and the created user (the unseen hashing and persistence
are abstracted by `issue`), and `generateJwtToken` is abstracted by
`gen`. -/
def specAuthService {Usr : Type} (issue : CreateUserDto → AuthResponse Usr)
    (gen : Usr → AuthResponse Usr) : AuthService Usr CreateUserDto where
  registerUser dto := .ok (issue dto)
  generateJwtToken := gen

/-- The budget statuses the findAll filter accepts. -/
inductive BudgetStatus where
  | pending
  | active
  | completed
  deriving DecidableEq, Repr

/-- Modelled from the spec: `FilterBudgetDto` carries the optional query
filters of `GET /budgets`: category (a name), month (an integer 0 to 11)
and status (pending, active or completed). -/
structure FilterBudgetDto where
  category : Option String
  month : Option (Fin 12)
  status : Option BudgetStatus
  deriving DecidableEq, Repr

/-- Modelled from the spec: the persisted `Budget` entity, with the id
and owner that scope lookups, the fields the findAll filters inspect,
and the initial and spent amounts the balance endpoint derives from. -/
structure MBudget where
  id : String
  ownerId : String
  category : String
  month : Fin 12
  status : BudgetStatus
  initial_amount : ℚ
  spent_amount : ℚ
  deriving DecidableEq, Repr

/-- The `IBudgetBalance` response of `GET /budgets/:id/balance`: exactly
the five documented fields. -/
structure IBudgetBalance where
  initial_amount : ℚ
  spent_amount : ℚ
  percentage_spent_amount : ℚ
  remaining_amount : ℚ
  percentage_remaining_amount : ℚ
  deriving DecidableEq, Repr

/-- The message object `DELETE /budgets/:id` resolves to. -/
structure MessageResponse where
  message : String
  deriving DecidableEq, Repr

/-- Modelled from the spec: a budget is visible to a request when its id
matches and its owner is the authenticated subject (multi-tenant
isolation by owner). -/
def findBudget (store : List MBudget) (id sub : String) : Option MBudget :=
  store.find? fun b => b.id == id && b.ownerId == sub

/-- Modelled from the spec: whether a stored budget belongs to the
caller and matches every filter that was supplied. -/
def matchesFilter (sub : String) (f : FilterBudgetDto) (b : MBudget) :
    Bool :=
  b.ownerId == sub &&
  (match f.category with | none => true | some c => b.category == c) &&
  (match f.month with | none => true | some m => b.month == m) &&
  (match f.status with | none => true | some st => b.status == st)

/-- Modelled from the spec: the balance object derived from a budget,
with percentage of spent = spent / initial × 100, remaining =
initial − spent, and percentage of remaining = remaining / initial
× 100. -/
def computeBalance (b : MBudget) : IBudgetBalance :=
  { initial_amount := b.initial_amount
    spent_amount := b.spent_amount
    percentage_spent_amount := b.spent_amount / b.initial_amount * 100
    remaining_amount := b.initial_amount - b.spent_amount
    percentage_remaining_amount :=
      (b.initial_amount - b.spent_amount) / b.initial_amount * 100 }

/-- Modelled from the spec: the unseen `BudgetsService` over a store of
budgets. Lookups scoped to the caller fail with 404 when the budget is
absent; `findAll` filters the budgets of the caller; `remove` resolves to the
documented message on success and surfaces any failure (flagged by
`dbOk`) as a 500; `getBalance` is the 404-or-balance computation;
`create` and `update` build or rewrite a budget through the given
constructors, about which the spec says nothing further. -/
def specService (store : List MBudget) (dbOk : Bool) {C U : Type}
    (mkBudget : String → C → MBudget)
    (updBudget : MBudget → U → MBudget) :
    BudgetsService C U FilterBudgetDto MBudget MessageResponse
      IBudgetBalance where
  create sub dto := .ok (mkBudget sub dto)
  findAll sub f := .ok (store.filter (matchesFilter sub f))
  findOne id sub :=
    match findBudget store id sub with
    | some b => .ok b
    | none => .error .notFound
  update id sub dto :=
    match findBudget store id sub with
    | some b => .ok (updBudget b dto)
    | none => .error .notFound
  remove _ _ :=
    if dbOk then .ok { message := "Budget deleted successfully" }
    else .error .internalServerError
  getBalance id sub :=
    match findBudget store id sub with
    | some b => .ok (computeBalance b)
    | none => .error .notFound

/-- A probe service whose every method reports the owner identifier it
was invoked with: instantiating the controller with it observes exactly
which owner scope each handler passes to the service. -/
def ownerProbe {C U F : Type} :
    BudgetsService C U F String String String where
  create sub _ := .ok sub
  findAll sub _ := .ok [sub]
  findOne _ sub := .ok sub
  update _ sub _ := .ok sub
  remove _ sub := .ok sub
  getBalance _ sub := .ok sub

/-! Concrete fixtures used by the witness theorems. -/

/-- A concrete verification environment: one known bearer token whose
payload names the subject `alice`. -/
def tVerify : String → Option IPayloadToken :=
  fun t => if t == "good-token" then some { sub := "alice" } else none

/-- A verification environment with two known tokens whose payloads
name different subjects. -/
def tVerify2 : String → Option IPayloadToken :=
  fun t =>
    if t == "tok-a" then some { sub := "alice" }
    else if t == "tok-b" then some { sub := "bob" }
    else none

/-- A concrete well-formed UUID (the example UUID of the Swagger
annotations). -/
def tId : String := "b2c6e182-6aef-4c38-8d26-9153d7ebc7d2"

/-- A concrete stored budget owned by `alice`. -/
def tBudget : MBudget :=
  { id := tId
    ownerId := "alice"
    category := "food"
    month := 3
    status := .active
    initial_amount := 1000
    spent_amount := 200 }

/-- A concrete budget constructor for instantiating `specService`. -/
def tMk : String → Bool → MBudget :=
  fun sub _ => { tBudget with ownerId := sub }

/-- A concrete budget updater for instantiating `specService`. -/
def tUpd : MBudget → Bool → MBudget := fun b _ => b

/-- The spec-modelled service over the one-budget store. -/
def tService :
    BudgetsService Bool Bool FilterBudgetDto MBudget MessageResponse
      IBudgetBalance :=
  specService [tBudget] true tMk tUpd

/-- A filter selecting no optional criteria. -/
def tFilter : FilterBudgetDto := { category := none, month := none, status := none }

/-- A concrete credential table: `alice` logs in with her email and one
password. -/
def tValidateUser : String → String → Option String :=
  fun email password =>
    if email == "alice@example.com" && password == "pw-1" then
      some "alice"
    else none

/-- A concrete registration outcome for the auth fixtures. -/
def tIssue : CreateUserDto → AuthResponse String :=
  fun d => { accessToken := "jwt-reg", user := d.name }

/-- A concrete token generation for the auth fixtures. -/
def tGen : String → AuthResponse String :=
  fun u => { accessToken := "jwt-login", user := u }

/-- The spec-modelled auth service over the concrete fixtures. -/
def tAuthService : AuthService String CreateUserDto :=
  specAuthService tIssue tGen

/-- `runJwtGuard` rejects only with 401: a failed guard is always an
unauthorized rejection. -/
theorem runJwtGuard_error_unauthorized
    (verify : String → Option IPayloadToken) (bearer : Option String)
    (e : HttpStatus) (h : runJwtGuard verify bearer = .error e) :
    e = .unauthorized := by
  unfold runJwtGuard at h
  cases bearer with
  | none => exact (Except.error.inj h).symm
  | some t =>
    cases hv : verify t with
    | none =>
      simp only [hv] at h
      exact (Except.error.inj h).symm
    | some p =>
      simp only [hv] at h
      exact absurd h (by simp)

/-- Claim C1: every route handler of `BudgetsController` (create,
findAll, findOne, update, remove, getBalance) is admitted only after
`JwtAuthGuard` validates the bearer token — when the guard rejects, each
handler rejects with 401 no matter what the injected service would do —
and when the guard accepts a payload, the owner identifier passed to the
`BudgetsService` call is exactly the authenticated subject identifier
`req.user.sub`, so every budget operation is scoped to the caller. -/
theorem budgets_routes_guard_and_owner_scope
    {C U F B M Bal : Type} (svc : BudgetsService C U F B M Bal)
    (verify : String → Option IPayloadToken) (bearer : Option String)
    (body : C) (q : F) (idParam : String) (updDto : U) :
    (∀ e, runJwtGuard verify bearer = .error e →
      e = .unauthorized ∧
      BudgetsController.create svc verify bearer body =
        .error .unauthorized ∧
      BudgetsController.findAll svc verify bearer q =
        .error .unauthorized ∧
      BudgetsController.findOne svc verify bearer idParam =
        .error .unauthorized ∧
      BudgetsController.update svc verify bearer idParam updDto =
        .error .unauthorized ∧
      BudgetsController.remove svc verify bearer idParam =
        .error .unauthorized ∧
      BudgetsController.getBalance svc verify bearer idParam =
        .error .unauthorized) ∧
    (∀ p, runJwtGuard verify bearer = .ok p →
      BudgetsController.create svc verify bearer body =
        svc.create p.sub body ∧
      BudgetsController.findAll svc verify bearer q =
        svc.findAll p.sub q ∧
      BudgetsController.findOne svc verify bearer idParam =
        (parseUUIDPipe idParam).bind (fun id => svc.findOne id p.sub) ∧
      BudgetsController.update svc verify bearer idParam updDto =
        (parseUUIDPipe idParam).bind
          (fun id => svc.update id p.sub updDto) ∧
      BudgetsController.remove svc verify bearer idParam =
        (parseUUIDPipe idParam).bind (fun id => svc.remove id p.sub) ∧
      BudgetsController.getBalance svc verify bearer idParam =
        (parseUUIDPipe idParam).bind
          (fun id => svc.getBalance id p.sub)) := by
  constructor
  · intro e he
    have heu : e = .unauthorized :=
      runJwtGuard_error_unauthorized verify bearer e he
    subst heu
    refine ⟨rfl, ?_, ?_, ?_, ?_, ?_, ?_⟩ <;>
      simp [BudgetsController.create, BudgetsController.findAll,
        BudgetsController.findOne, BudgetsController.update,
        BudgetsController.remove, BudgetsController.getBalance,
        he, Except.bind]
  · intro p hp
    refine ⟨?_, ?_, ?_, ?_, ?_, ?_⟩ <;>
      simp [BudgetsController.create, BudgetsController.findAll,
        BudgetsController.findOne, BudgetsController.update,
        BudgetsController.remove, BudgetsController.getBalance,
        hp, Except.bind]

/-- Witness for C1 at concrete inputs: with the valid token the create
handler calls the service scoped to `alice`; with no token the findAll
handler rejects with 401. -/
theorem budgets_routes_guard_and_owner_scope_witness :
    BudgetsController.create tService tVerify (some "good-token") true =
      tService.create "alice" true ∧
    BudgetsController.findAll tService tVerify none tFilter =
      .error .unauthorized :=
  ⟨((budgets_routes_guard_and_owner_scope tService tVerify
      (some "good-token") true tFilter tId true).2
      { sub := "alice" } rfl).1,
   ((budgets_routes_guard_and_owner_scope tService tVerify
      none true tFilter tId true).1 .unauthorized rfl).2.2.1⟩

/-- Claim C2: every balance object returned by
`GET /budgets/:id/balance` satisfies
percentage of spent = spent / initial × 100,
remaining = initial − spent, and
percentage of remaining = remaining / initial × 100:
the percentages are computed consistently from the two amounts.
The computation lives in the unseen service and is modelled from the
spec by `computeBalance`. -/
theorem getBalance_percentages_consistent {C U : Type}
    (store : List MBudget) (dbOk : Bool) (mk : String → C → MBudget)
    (upd : MBudget → U → MBudget)
    (verify : String → Option IPayloadToken) (bearer : Option String)
    (idParam : String) (bal : IBudgetBalance)
    (h : BudgetsController.getBalance (specService store dbOk mk upd)
          verify bearer idParam = .ok bal) :
    bal.percentage_spent_amount =
      bal.spent_amount / bal.initial_amount * 100 ∧
    bal.remaining_amount = bal.initial_amount - bal.spent_amount ∧
    bal.percentage_remaining_amount =
      bal.remaining_amount / bal.initial_amount * 100 := by
  unfold BudgetsController.getBalance at h
  cases hg : runJwtGuard verify bearer with
  | error e => rw [hg] at h; simp [Except.bind] at h
  | ok p =>
    rw [hg] at h
    cases hp : parseUUIDPipe idParam with
    | error e => rw [hp] at h; simp [Except.bind] at h
    | ok id =>
      rw [hp] at h
      simp only [Except.bind, specService] at h
      cases hf : findBudget store id p.sub with
      | none => simp only [hf] at h; exact absurd h (by simp)
      | some b =>
        simp only [hf] at h
        have hb : computeBalance b = bal := Except.ok.inj h
        subst hb
        exact ⟨rfl, rfl, rfl⟩

/-- Witness for C2: on the concrete store the balance endpoint returns
the balance of the stored budget, and that balance satisfies the three
consistency equations. -/
theorem getBalance_percentages_consistent_witness :
    BudgetsController.getBalance (specService [tBudget] true tMk tUpd)
      tVerify (some "good-token") tId = .ok (computeBalance tBudget) ∧
    ((computeBalance tBudget).percentage_spent_amount =
      (computeBalance tBudget).spent_amount /
        (computeBalance tBudget).initial_amount * 100 ∧
     (computeBalance tBudget).remaining_amount =
      (computeBalance tBudget).initial_amount -
        (computeBalance tBudget).spent_amount ∧
     (computeBalance tBudget).percentage_remaining_amount =
      (computeBalance tBudget).remaining_amount /
        (computeBalance tBudget).initial_amount * 100) :=
  ⟨rfl,
   getBalance_percentages_consistent [tBudget] true tMk tUpd tVerify
     (some "good-token") tId (computeBalance tBudget) rfl⟩

/-- Claim C3: for an authenticated request with a well-formed UUID,
`GET /budgets/:id/balance` returns the balance object with exactly the
five documented fields when the caller owns a budget with that id, and
fails with 404 when that budget is absent. The lookup and computation
are modelled from the spec by `specService`. -/
theorem getBalance_shape_and_absent {C U : Type}
    (store : List MBudget) (dbOk : Bool) (mk : String → C → MBudget)
    (upd : MBudget → U → MBudget)
    (verify : String → Option IPayloadToken) (bearer : Option String)
    (idParam : String) (p : IPayloadToken)
    (hg : runJwtGuard verify bearer = .ok p)
    (hu : isUUID idParam = true) :
    (∀ b, findBudget store idParam p.sub = some b →
      BudgetsController.getBalance (specService store dbOk mk upd)
          verify bearer idParam =
        .ok { initial_amount := b.initial_amount
              spent_amount := b.spent_amount
              percentage_spent_amount :=
                b.spent_amount / b.initial_amount * 100
              remaining_amount := b.initial_amount - b.spent_amount
              percentage_remaining_amount :=
                (b.initial_amount - b.spent_amount) /
                  b.initial_amount * 100 }) ∧
    (findBudget store idParam p.sub = none →
      BudgetsController.getBalance (specService store dbOk mk upd)
          verify bearer idParam = .error .notFound) := by
  constructor
  · intro b hf
    simp [BudgetsController.getBalance, hg, Except.bind, parseUUIDPipe,
      hu, specService, hf, computeBalance]
  · intro hf
    simp [BudgetsController.getBalance, hg, Except.bind, parseUUIDPipe,
      hu, specService, hf]

/-- Witness for C3: on the concrete store the hypotheses hold and the
balance of the stored budget is returned with its five fields. -/
theorem getBalance_shape_and_absent_witness :
    runJwtGuard tVerify (some "good-token") = .ok { sub := "alice" } ∧
    isUUID tId = true ∧
    findBudget [tBudget] tId "alice" = some tBudget ∧
    BudgetsController.getBalance (specService [tBudget] true tMk tUpd)
        tVerify (some "good-token") tId =
      .ok { initial_amount := tBudget.initial_amount
            spent_amount := tBudget.spent_amount
            percentage_spent_amount :=
              tBudget.spent_amount / tBudget.initial_amount * 100
            remaining_amount :=
              tBudget.initial_amount - tBudget.spent_amount
            percentage_remaining_amount :=
              (tBudget.initial_amount - tBudget.spent_amount) /
                tBudget.initial_amount * 100 } :=
  ⟨rfl, rfl, rfl,
   (getBalance_shape_and_absent [tBudget] true tMk tUpd tVerify
     (some "good-token") tId { sub := "alice" } rfl rfl).1 tBudget rfl⟩

/-- Claim C4: `POST /auth/login` is guarded by the local credential
check on the supplied email and password: with valid credentials it
succeeds (201) with an object carrying exactly an accessToken and a
user, and with invalid credentials it fails with 401 — the rejection is
produced by the guard for every possible service, so it happens before
the handler body runs. The credential check is modelled from the spec
by `runLocalGuard`. -/
theorem login_route_guarded {Usr Reg : Type} (svc : AuthService Usr Reg)
    (validateUser : String → String → Option Usr)
    (email password : String) :
    (∀ u, validateUser email password = some u →
      AuthController.login svc validateUser email password =
        .ok { accessToken := (svc.generateJwtToken u).accessToken
              user := (svc.generateJwtToken u).user }) ∧
    (validateUser email password = none →
      AuthController.login svc validateUser email password =
        .error .unauthorized) := by
  constructor
  · intro u hu
    simp [AuthController.login, runLocalGuard, hu, Except.map]
  · intro hn
    simp [AuthController.login, runLocalGuard, hn, Except.map]

/-- Witness for C4: the valid credentials of alice yield the token response;
a wrong password yields 401. -/
theorem login_route_guarded_witness :
    tValidateUser "alice@example.com" "pw-1" = some "alice" ∧
    AuthController.login tAuthService tValidateUser
      "alice@example.com" "pw-1" =
      .ok { accessToken := "jwt-login", user := "alice" } ∧
    tValidateUser "alice@example.com" "wrong" = none ∧
    AuthController.login tAuthService tValidateUser
      "alice@example.com" "wrong" = .error .unauthorized :=
  ⟨rfl,
   (login_route_guarded tAuthService tValidateUser
     "alice@example.com" "pw-1").1 "alice" rfl,
   rfl,
   (login_route_guarded tAuthService tValidateUser
     "alice@example.com" "wrong").2 rfl⟩

/-- Claim C5: `POST /auth/register` succeeds (201) with an object
carrying exactly an accessToken and a user when the body passes DTO
validation, and fails with 400 when validation of the body fails. The
validation and the registration outcome are modelled from the spec by
`validateCreateUserDto` and `specAuthService`. -/
theorem register_route_validation {Usr : Type}
    (issue : CreateUserDto → AuthResponse Usr)
    (gen : Usr → AuthResponse Usr) (body : RawRegisterBody) :
    (((body.name != "") && isEmail body.email) = true →
      AuthController.createUser (specAuthService issue gen)
          validateCreateUserDto body =
        .ok { accessToken :=
                (issue { name := body.name, email := body.email,
                         password := body.password }).accessToken
              user :=
                (issue { name := body.name, email := body.email,
                         password := body.password }).user }) ∧
    (((body.name != "") && isEmail body.email) = false →
      AuthController.createUser (specAuthService issue gen)
          validateCreateUserDto body = .error .badRequest) := by
  constructor
  · intro hv
    simp [AuthController.createUser, validateCreateUserDto, hv,
      specAuthService, Except.bind]
  · intro hv
    simp [AuthController.createUser, validateCreateUserDto, hv,
      Except.bind]

/-- Witness for C5: a well-formed body registers successfully; a body
with an empty name is rejected with 400. -/
theorem register_route_validation_witness :
    ((RawRegisterBody.name
        { name := "Jane", email := "janesmith@example.com",
          password := "pw" } != "") &&
      isEmail (RawRegisterBody.email
        { name := "Jane", email := "janesmith@example.com",
          password := "pw" })) = true ∧
    AuthController.createUser (specAuthService tIssue tGen)
      validateCreateUserDto
      { name := "Jane", email := "janesmith@example.com",
        password := "pw" } =
      .ok { accessToken := "jwt-reg", user := "Jane" } ∧
    AuthController.createUser (specAuthService tIssue tGen)
      validateCreateUserDto
      { name := "", email := "janesmith@example.com",
        password := "pw" } = .error .badRequest :=
  ⟨rfl,
   (register_route_validation tIssue tGen
     { name := "Jane", email := "janesmith@example.com",
       password := "pw" }).1 rfl,
   (register_route_validation tIssue tGen
     { name := "", email := "janesmith@example.com",
       password := "pw" }).2 rfl⟩

/-- Claim C6: on the id routes (`GET /budgets/:id`, PATCH, DELETE and
`GET /budgets/:id/balance`), a path parameter that is not a well-formed
UUID is rejected by `ParseUUIDPipe` with a 400 validation error before
the service is called — the rejection is the same for every service —
while for a well-formed UUID `findOne` returns the budget, failing with
404 when no such budget exists for the caller (lookup modelled from the
spec by `specService`). -/
theorem id_param_uuid_validated {C U F B M Bal C2 U2 : Type}
    (svc : BudgetsService C U F B M Bal)
    (store : List MBudget) (dbOk : Bool) (mk : String → C2 → MBudget)
    (upd : MBudget → U2 → MBudget)
    (verify : String → Option IPayloadToken) (bearer : Option String)
    (idParam : String) (updDto : U) (p : IPayloadToken)
    (hg : runJwtGuard verify bearer = .ok p) :
    (isUUID idParam = false →
      BudgetsController.findOne svc verify bearer idParam =
        .error .badRequest ∧
      BudgetsController.update svc verify bearer idParam updDto =
        .error .badRequest ∧
      BudgetsController.remove svc verify bearer idParam =
        .error .badRequest ∧
      BudgetsController.getBalance svc verify bearer idParam =
        .error .badRequest) ∧
    (isUUID idParam = true →
      (∀ b, findBudget store idParam p.sub = some b →
        BudgetsController.findOne (specService store dbOk mk upd)
          verify bearer idParam = .ok b) ∧
      (findBudget store idParam p.sub = none →
        BudgetsController.findOne (specService store dbOk mk upd)
          verify bearer idParam = .error .notFound)) := by
  constructor
  · intro hbad
    refine ⟨?_, ?_, ?_, ?_⟩ <;>
      simp [BudgetsController.findOne, BudgetsController.update,
        BudgetsController.remove, BudgetsController.getBalance, hg,
        parseUUIDPipe, hbad, Except.bind]
  · intro hok
    constructor
    · intro b hf
      simp [BudgetsController.findOne, hg, parseUUIDPipe, hok,
        specService, hf, Except.bind]
    · intro hf
      simp [BudgetsController.findOne, hg, parseUUIDPipe, hok,
        specService, hf, Except.bind]

/-- Witness for C6: a malformed id is rejected with 400, and the
concrete well-formed id returns the stored budget. -/
theorem id_param_uuid_validated_witness :
    runJwtGuard tVerify (some "good-token") = .ok { sub := "alice" } ∧
    isUUID "not-a-uuid" = false ∧
    BudgetsController.findOne tService tVerify (some "good-token")
      "not-a-uuid" = .error .badRequest ∧
    isUUID tId = true ∧
    BudgetsController.findOne (specService [tBudget] true tMk tUpd)
      tVerify (some "good-token") tId = .ok tBudget :=
  ⟨rfl, rfl,
   ((id_param_uuid_validated tService [tBudget] true tMk tUpd tVerify
     (some "good-token") "not-a-uuid" true { sub := "alice" } rfl).1
     rfl).1,
   rfl,
   ((id_param_uuid_validated tService [tBudget] true tMk tUpd tVerify
     (some "good-token") tId true { sub := "alice" } rfl).2 rfl).1
     tBudget rfl⟩

/-- Claim C7: `GET /budgets` accepts the optional query filters of
`FilterBudgetDto` — category, month (an integer 0 to 11) and status
(pending, active or completed) — and forwards them unchanged, together
with the subject identifier of the caller, to `BudgetsService.findAll`,
returning the resulting array. -/
theorem findAll_forwards_filters {C U B M Bal : Type}
    (svc : BudgetsService C U FilterBudgetDto B M Bal)
    (verify : String → Option IPayloadToken) (bearer : Option String)
    (p : IPayloadToken) (filterOptions : FilterBudgetDto)
    (hg : runJwtGuard verify bearer = .ok p) :
    BudgetsController.findAll svc verify bearer filterOptions =
      svc.findAll p.sub filterOptions := by
  simp [BudgetsController.findAll, hg, Except.bind]

/-- Witness for C7: with a concrete filter on all three criteria the
result of the handler is the service call scoped to alice with the same
filter. -/
theorem findAll_forwards_filters_witness :
    runJwtGuard tVerify (some "good-token") = .ok { sub := "alice" } ∧
    BudgetsController.findAll tService tVerify (some "good-token")
      { category := some "food", month := some 3,
        status := some .active } =
      tService.findAll "alice"
        { category := some "food", month := some 3,
          status := some .active } :=
  ⟨rfl,
   findAll_forwards_filters tService tVerify (some "good-token")
     { sub := "alice" }
     { category := some "food", month := some 3, status := some .active }
     rfl⟩

/-- Claim C8: `DELETE /budgets/:id`, for an authenticated request with
a well-formed UUID, resolves to an object with a message field on
success, and any failure of the deletion is surfaced as a 500 — the
route never produces a 404, its outcome being one of the two. The
deletion outcome is modelled from the spec by `specService` with the
`dbOk` flag. -/
theorem remove_route_outcomes {C U : Type}
    (store : List MBudget) (dbOk : Bool) (mk : String → C → MBudget)
    (upd : MBudget → U → MBudget)
    (verify : String → Option IPayloadToken) (bearer : Option String)
    (idParam : String) (p : IPayloadToken)
    (hg : runJwtGuard verify bearer = .ok p)
    (hu : isUUID idParam = true) :
    (dbOk = true →
      BudgetsController.remove (specService store dbOk mk upd) verify
        bearer idParam =
        .ok { message := "Budget deleted successfully" }) ∧
    (BudgetsController.remove (specService store dbOk mk upd) verify
        bearer idParam =
        .ok { message := "Budget deleted successfully" } ∨
      BudgetsController.remove (specService store dbOk mk upd) verify
        bearer idParam = .error .internalServerError) := by
  constructor
  · intro hdb
    simp [BudgetsController.remove, hg, parseUUIDPipe, hu, specService,
      hdb, Except.bind]
  · cases hdb : dbOk with
    | true =>
      exact Or.inl (by
        simp [BudgetsController.remove, hg, parseUUIDPipe, hu,
          specService, Except.bind])
    | false =>
      exact Or.inr (by
        simp [BudgetsController.remove, hg, parseUUIDPipe, hu,
          specService, Except.bind])

/-- Witness for C8: with the database healthy the delete resolves to
the documented message object. -/
theorem remove_route_outcomes_witness :
    runJwtGuard tVerify (some "good-token") = .ok { sub := "alice" } ∧
    isUUID tId = true ∧
    BudgetsController.remove (specService [tBudget] true tMk tUpd)
      tVerify (some "good-token") tId =
      .ok { message := "Budget deleted successfully" } :=
  ⟨rfl, rfl,
   (remove_route_outcomes [tBudget] true tMk tUpd tVerify
     (some "good-token") tId { sub := "alice" } rfl rfl).1 rfl⟩

/-- Claim C9: every handler of `BudgetsController` and `AuthController`
makes one call to its injected service and returns the result of that call
unchanged — once the guard (and, where present, the UUID pipe and DTO
validation) has admitted the request, the observable behaviour of the
handler, for every possible service, equals the behaviour of the
service method at the shifted argument list. -/
theorem handlers_delegate_unchanged {C U F B M Bal Usr Reg : Type}
    (svc : BudgetsService C U F B M Bal) (asvc : AuthService Usr Reg)
    (verify : String → Option IPayloadToken)
    (validate : RawRegisterBody → Except HttpStatus Reg)
    (validateUser : String → String → Option Usr)
    (bearer : Option String) (body : C) (q : F) (idParam : String)
    (updDto : U) (raw : RawRegisterBody) (email password : String) :
    (∀ p, runJwtGuard verify bearer = .ok p →
      BudgetsController.create svc verify bearer body =
        svc.create p.sub body ∧
      BudgetsController.findAll svc verify bearer q =
        svc.findAll p.sub q ∧
      (isUUID idParam = true →
        BudgetsController.findOne svc verify bearer idParam =
          svc.findOne idParam p.sub ∧
        BudgetsController.update svc verify bearer idParam updDto =
          svc.update idParam p.sub updDto ∧
        BudgetsController.remove svc verify bearer idParam =
          svc.remove idParam p.sub ∧
        BudgetsController.getBalance svc verify bearer idParam =
          svc.getBalance idParam p.sub)) ∧
    (∀ dto, validate raw = .ok dto →
      AuthController.createUser asvc validate raw =
        asvc.registerUser dto) ∧
    (∀ u, validateUser email password = some u →
      AuthController.login asvc validateUser email password =
        .ok (asvc.generateJwtToken u)) := by
  refine ⟨fun p hp => ⟨?_, ?_, fun hu => ⟨?_, ?_, ?_, ?_⟩⟩,
    fun dto hd => ?_, fun u hu => ?_⟩
  · simp [BudgetsController.create, hp, Except.bind]
  · simp [BudgetsController.findAll, hp, Except.bind]
  · simp [BudgetsController.findOne, hp, parseUUIDPipe, hu, Except.bind]
  · simp [BudgetsController.update, hp, parseUUIDPipe, hu, Except.bind]
  · simp [BudgetsController.remove, hp, parseUUIDPipe, hu, Except.bind]
  · simp [BudgetsController.getBalance, hp, parseUUIDPipe, hu,
      Except.bind]
  · simp [AuthController.createUser, hd, Except.bind]
  · simp [AuthController.login, runLocalGuard, hu, Except.map]

/-- Witness for C9: at the concrete fixtures the findAll handler is the
service call scoped to alice, and the login handler is the token the
service generated for alice, unchanged. -/
theorem handlers_delegate_unchanged_witness :
    runJwtGuard tVerify (some "good-token") = .ok { sub := "alice" } ∧
    BudgetsController.findAll tService tVerify (some "good-token")
      tFilter = tService.findAll "alice" tFilter ∧
    tValidateUser "alice@example.com" "pw-1" = some "alice" ∧
    AuthController.login tAuthService tValidateUser
      "alice@example.com" "pw-1" =
      .ok (tAuthService.generateJwtToken "alice") :=
  ⟨rfl,
   ((handlers_delegate_unchanged tService tAuthService tVerify
      validateCreateUserDto tValidateUser (some "good-token") true
      tFilter tId true
      { name := "Jane", email := "janesmith@example.com",
        password := "pw" }
      "alice@example.com" "pw-1").1 { sub := "alice" } rfl).2.1,
   rfl,
   (handlers_delegate_unchanged tService tAuthService tVerify
     validateCreateUserDto tValidateUser (some "good-token") true
     tFilter tId true
     { name := "Jane", email := "janesmith@example.com",
       password := "pw" }
     "alice@example.com" "pw-1").2.2 "alice" rfl⟩

/-- Claim C10: the owner identifier passed to every `BudgetsService`
call comes exclusively from the verified token payload (`req.user.sub`)
and never from the body, query, or path: instantiating the controller
with the owner-reporting probe service, the owner scope equals the
subject of the token whatever the DTOs contain, handler results are
invariant under changing the create body, the update body, or the query
filter, and two requests identical except for the authenticated
subject of the authenticated token reach the service with different
owner scopes. -/
theorem owner_scope_from_token_only {C U F : Type}
    (verify : String → Option IPayloadToken)
    (bearer b1 b2 : Option String) (dto dto1 dto2 : C) (q q1 q2 : F)
    (updDto updDto1 updDto2 : U) (idParam : String) :
    (∀ p, runJwtGuard verify bearer = .ok p →
      BudgetsController.create
          (ownerProbe : BudgetsService C U F String String String)
          verify bearer dto = .ok p.sub ∧
      BudgetsController.findAll
          (ownerProbe : BudgetsService C U F String String String)
          verify bearer q = .ok [p.sub] ∧
      (isUUID idParam = true →
        BudgetsController.update
            (ownerProbe : BudgetsService C U F String String String)
            verify bearer idParam updDto = .ok p.sub)) ∧
    (BudgetsController.create
        (ownerProbe : BudgetsService C U F String String String)
        verify bearer dto1 =
      BudgetsController.create
        (ownerProbe : BudgetsService C U F String String String)
        verify bearer dto2 ∧
     BudgetsController.findAll
        (ownerProbe : BudgetsService C U F String String String)
        verify bearer q1 =
      BudgetsController.findAll
        (ownerProbe : BudgetsService C U F String String String)
        verify bearer q2 ∧
     BudgetsController.update
        (ownerProbe : BudgetsService C U F String String String)
        verify bearer idParam updDto1 =
      BudgetsController.update
        (ownerProbe : BudgetsService C U F String String String)
        verify bearer idParam updDto2) ∧
    (∀ p1 p2, runJwtGuard verify b1 = .ok p1 →
      runJwtGuard verify b2 = .ok p2 → p1.sub ≠ p2.sub →
      BudgetsController.create
          (ownerProbe : BudgetsService C U F String String String)
          verify b1 dto1 ≠
        BudgetsController.create
          (ownerProbe : BudgetsService C U F String String String)
          verify b2 dto2) := by
  refine ⟨fun p hp => ⟨?_, ?_, fun hu => ?_⟩, ⟨rfl, rfl, rfl⟩,
    fun p1 p2 h1 h2 hne heq => ?_⟩
  · simp [BudgetsController.create, ownerProbe, hp, Except.bind]
  · simp [BudgetsController.findAll, ownerProbe, hp, Except.bind]
  · simp [BudgetsController.update, ownerProbe, hp, parseUUIDPipe, hu,
      Except.bind]
  · have e1 : BudgetsController.create
        (ownerProbe : BudgetsService C U F String String String)
        verify b1 dto1 = .ok p1.sub := by
      simp [BudgetsController.create, ownerProbe, h1, Except.bind]
    have e2 : BudgetsController.create
        (ownerProbe : BudgetsService C U F String String String)
        verify b2 dto2 = .ok p2.sub := by
      simp [BudgetsController.create, ownerProbe, h2, Except.bind]
    rw [e1, e2] at heq
    exact hne (Except.ok.inj heq)

/-- Witness for C10: with the two-token environment the create handler
reports owner alice under the first token whatever the body, its result
does not change with the body, and the second token reaches the service
with a different owner. -/
theorem owner_scope_from_token_only_witness :
    BudgetsController.create
        (ownerProbe :
          BudgetsService Bool Bool FilterBudgetDto String String String)
        tVerify2 (some "tok-a") true = .ok "alice" ∧
    BudgetsController.create
        (ownerProbe :
          BudgetsService Bool Bool FilterBudgetDto String String String)
        tVerify2 (some "tok-a") true =
      BudgetsController.create
        (ownerProbe :
          BudgetsService Bool Bool FilterBudgetDto String String String)
        tVerify2 (some "tok-a") false ∧
    BudgetsController.create
        (ownerProbe :
          BudgetsService Bool Bool FilterBudgetDto String String String)
        tVerify2 (some "tok-a") true ≠
      BudgetsController.create
        (ownerProbe :
          BudgetsService Bool Bool FilterBudgetDto String String String)
        tVerify2 (some "tok-b") false :=
  ⟨((owner_scope_from_token_only tVerify2 (some "tok-a")
      (some "tok-a") (some "tok-b") true true false tFilter tFilter
      tFilter true true false tId).1 { sub := "alice" } rfl).1,
   ((owner_scope_from_token_only tVerify2 (some "tok-a")
      (some "tok-a") (some "tok-b") true true false tFilter tFilter
      tFilter true true false tId).2.1).1,
   (owner_scope_from_token_only tVerify2 (some "tok-a")
      (some "tok-a") (some "tok-b") true true false tFilter tFilter
      tFilter true true false tId).2.2 { sub := "alice" }
      { sub := "bob" } rfl rfl (by simp)⟩

end BudgetsApp
